import Mathlib

/-!
Verification of the connectivity prober of the Steammarketplace2 repository
(src/archive/my-agent-project/src/tools/steam_tools.py).

The Python function under study is:

  def check_server_status() -> Dict[str, str]:
      servers = {
          "frontend": ("localhost", 3002),
          "backend": ("localhost", 3001),
          "redis": ("localhost", 6379)
      }
      status = {}
      for name, (host, port) in servers.items():
          try:
              with socket.create_connection((host, port), timeout=1):
                  status[name] = "UP"
          except (socket.timeout, ConnectionRefusedError, OSError):
              status[name] = "DOWN"
      return status

The network is modelled as an oracle (a `Probe`) giving, for each
(host, port, timeout) triple, the outcome of one `socket.create_connection`
attempt: success, or a raised Python exception.  Python dicts preserve
insertion order, so the returned dict is embedded as an association list in
insertion order.  The `with` statement closes the socket at block exit on the
success path; connection attempts and closes are recorded in an event trace.
-/

namespace SteamTools

/-- Kinds of Python exception a `socket.create_connection` call can raise,
grouped by how the source's `except (socket.timeout, ConnectionRefusedError,
OSError)` clause sees them.  `socket.timeout` and `ConnectionRefusedError` are
subclasses of `OSError`; `osError` stands for any other `OSError` (host
unreachable, DNS failure / `socket.gaierror`, ...); `other` stands for an
exception that is not an `OSError` at all (not a transport-level failure). -/
inductive PyExc where
  | socketTimeout
  | connectionRefused
  | osError
  | other
  deriving DecidableEq, Repr

/-- Whether the source's clause `except (socket.timeout, ConnectionRefusedError,
OSError)` catches a raised exception.  The three listed classes together cover
exactly the `OSError` hierarchy. -/
def caughtByExcept : PyExc → Bool
  | .socketTimeout => true
  | .connectionRefused => true
  | .osError => true
  | .other => false

/-- Transport-level failures (timeout, connection refused, host unreachable,
DNS failure, other OS-level transport errors) are exactly the `OSError`
kinds; `other` is not a transport-level failure. -/
def isTransportError : PyExc → Bool
  | .socketTimeout => true
  | .connectionRefused => true
  | .osError => true
  | .other => false

/-- Network-level events performed by the prober: a connection attempt to a
(host, port) pair, and the closing of an established connection. -/
inductive NetEvent where
  | connect (host : String) (port : Nat)
  | close (host : String) (port : Nat)
  deriving DecidableEq, Repr

/-- The network model: the outcome of one `socket.create_connection((host,
port), timeout)` attempt.  `Except.ok ()` is an established connection; an
error is the raised exception. -/
abbrev Probe := String → Nat → ℚ → Except PyExc Unit

/-- The hardcoded `servers` dict of `check_server_status`, as an association
list in insertion order: name to (host, port). -/
def servers : List (String × String × Nat) :=
  [("frontend", ("localhost", 3002)),
   ("backend", ("localhost", 3001)),
   ("redis", ("localhost", 6379))]

/-- The `for name, (host, port) in servers.items():` loop of
`check_server_status`.  For each target: try `socket.create_connection((host,
port), timeout=1)`; on success the `with` block records "UP" and closes the
connection at block exit; a raised exception caught by the `except` clause
records "DOWN"; an uncaught exception propagates out of the function.
Accumulates the `status` dict (insertion order) and the network event trace. -/
def runChecks (probe : Probe) :
    List (String × String × Nat) → List (String × String) → List NetEvent →
    Except PyExc (List (String × String) × List NetEvent)
  | [], status, tr => .ok (status, tr)
  | (name, (host, port)) :: rest, status, tr =>
    match probe host port 1 with
    | .ok _ =>
        runChecks probe rest (status ++ [(name, "UP")])
          (tr ++ [.connect host port, .close host port])
    | .error e =>
        if caughtByExcept e then
          runChecks probe rest (status ++ [(name, "DOWN")]) (tr ++ [.connect host port])
        else
          .error e

/-- The embedding of `check_server_status`: run the loop over the hardcoded
`servers` with `status = {}`, returning the status dict (or the uncaught
exception). -/
def check_server_status (probe : Probe) : Except PyExc (List (String × String)) :=
  (runChecks probe servers [] []).map Prod.fst

/-- The network event trace of one `check_server_status` invocation. -/
def check_server_trace (probe : Probe) : Except PyExc (List NetEvent) :=
  (runChecks probe servers [] []).map Prod.snd

/-- The status string one connection outcome yields under the source's
try/except (assuming a caught exception). -/
def statusOf : Except PyExc Unit → String
  | .ok _ => "UP"
  | .error _ => "DOWN"

/-- The network events one target contributes: a connect attempt, followed on
success by the close performed by the `with` block at block exit. -/
def targetTrace (probe : Probe) (t : String × String × Nat) : List NetEvent :=
  match probe t.2.1 t.2.2 1 with
  | .ok _ => [.connect t.2.1 t.2.2, .close t.2.1 t.2.2]
  | .error _ => [.connect t.2.1 t.2.2]

/-- A probe whose every failure is a transport-level failure (every raised
exception is in the `OSError` hierarchy). -/
def transportOnly (probe : Probe) : Prop :=
  ∀ h p t e, probe h p t = .error e → isTransportError e = true

/-- Whether an embedded Python call returned normally (no exception
propagated to the caller). -/
def exceptOk : Except PyExc (List (String × String)) → Bool
  | .ok _ => true
  | .error _ => false

/-- Look a name up in a returned status dict (`none` when the call raised). -/
def statusLookup (r : Except PyExc (List (String × String))) (name : String) :
    Option String :=
  match r with
  | .ok l => l.lookup name
  | .error _ => none

/-- The ordered key list of a returned status dict. -/
def statusKeys : Except PyExc (List (String × String)) → Option (List String)
  | .ok l => some (l.map Prod.fst)
  | .error _ => none

/-- How many entries of a returned status dict carry a given key
(0 when the call raised). -/
def countKey (r : Except PyExc (List (String × String))) (name : String) : Nat :=
  match r with
  | .ok l => (l.map Prod.fst).count name
  | .error _ => 0

/-- The (host, port) pairs of the connection attempts in a trace, in order. -/
def connectTargets : List NetEvent → List (String × Nat)
  | [] => []
  | .connect h p :: rest => (h, p) :: connectTargets rest
  | .close _ _ :: rest => connectTargets rest

/-- Wall-clock duration of a trace, given the duration of each connection
attempt; closing a connection takes negligible (zero) time. -/
def traceDuration (dur : String → Nat → ℚ) : List NetEvent → ℚ
  | [] => 0
  | .connect h p :: rest => dur h p + traceDuration dur rest
  | .close _ _ :: rest => traceDuration dur rest

/-- Modelled from the spec: the reimplementation contract `check_status(targets:
ordered sequence of Target, timeout_seconds: float) -> StatusReport` (spec
sections 4.1 and 6), a loop over a caller-supplied target sequence with a
caller-supplied per-attempt timeout.  This generalized prober is absent from
the repository's code, which hardcodes both the target list and the timeout. -/
def specLoop (probe : Probe) (timeout_seconds : ℚ) :
    List (String × String × Nat) → List (String × String) →
    Except PyExc (List (String × String))
  | [], status => .ok status
  | (name, (host, port)) :: rest, status =>
    match probe host port timeout_seconds with
    | .ok _ => specLoop probe timeout_seconds rest (status ++ [(name, "UP")])
    | .error e =>
        if caughtByExcept e then
          specLoop probe timeout_seconds rest (status ++ [(name, "DOWN")])
        else
          .error e

/-- Modelled from the spec: `check_status` applied to a caller-supplied target
sequence and timeout, starting from an empty report. -/
def check_status (probe : Probe) (targets : List (String × String × Nat))
    (timeout_seconds : ℚ) : Except PyExc (List (String × String)) :=
  specLoop probe timeout_seconds targets []

/-- The loop of `check_server_status` transcribed over an ambient program state
of arbitrary type σ (every module-level or otherwise shared mutable binding of
the Python program outside this call).  The source's loop body touches only the
local variables `servers`, `status`, `name`, `host`, `port` and calls
`socket.create_connection`; it contains no assignment to (or read of) any
non-local mutable binding, so the transcription threads the ambient state g
through untouched. -/
def runChecksSt {σ : Type} (probe : Probe) :
    List (String × String × Nat) → List (String × String) → σ →
    Except PyExc (List (String × String) × σ)
  | [], status, g => .ok (status, g)
  | (name, (host, port)) :: rest, status, g =>
    match probe host port 1 with
    | .ok _ => runChecksSt probe rest (status ++ [(name, "UP")]) g
    | .error e =>
        if caughtByExcept e then
          runChecksSt probe rest (status ++ [(name, "DOWN")]) g
        else
          .error e

/-- The embedding of `check_server_status` with the ambient program state made
explicit: `status = {}` is freshly created, the loop runs, and the final
ambient state is returned alongside the report. -/
def check_server_status_st {σ : Type} (probe : Probe) (g : σ) :
    Except PyExc (List (String × String) × σ) :=
  runChecksSt probe servers [] g

/-- A network in which every connection attempt succeeds. -/
def probeAllUp : Probe := fun _ _ _ => .ok ()

/-- A network in which every connection attempt is refused. -/
def probeAllDown : Probe := fun _ _ _ => .error .connectionRefused

/-- A network in which only port 3001 (the backend) is listening; every other
attempt is refused. -/
def probeOnlyBackend : Probe :=
  fun _ port _ => if port = 3001 then .ok () else .error .connectionRefused

/-- A network in which every connection completes, but only after more than one
second: an attempt succeeds exactly when its timeout is at least 2 seconds,
and times out otherwise. -/
def probeNeedsTwo : Probe :=
  fun _ _ timeout => if 2 ≤ timeout then .ok () else .error .socketTimeout

theorem caught_of_transport {e : PyExc} (h : isTransportError e = true) :
    caughtByExcept e = true := by
  cases e <;> simp_all [isTransportError, caughtByExcept]

theorem transportOnly_probeAllUp : transportOnly probeAllUp := by
  intro h p t e he
  exact absurd he (by simp [probeAllUp])

theorem transportOnly_probeAllDown : transportOnly probeAllDown := by
  intro h p t e he
  simp only [probeAllDown, Except.error.injEq] at he
  subst he
  rfl

theorem transportOnly_probeOnlyBackend : transportOnly probeOnlyBackend := by
  intro h p t e he
  simp only [probeOnlyBackend] at he
  split at he
  · exact absurd he (by simp)
  · simp only [Except.error.injEq] at he
    subst he
    rfl

theorem transportOnly_probeNeedsTwo : transportOnly probeNeedsTwo := by
  intro h p t e he
  simp only [probeNeedsTwo] at he
  split at he
  · exact absurd he (by simp)
  · simp only [Except.error.injEq] at he
    subst he
    rfl

/-- Characterization of the loop over any target list, for a probe whose
failures are all transport-level: the loop returns normally, appends one entry
per target keyed by its name with the status determined by that target's own
connection outcome, and appends each target's connect/close events in target
order. -/
theorem runChecks_eq (probe : Probe) (hp : transportOnly probe) :
    ∀ (ts : List (String × String × Nat)) (status : List (String × String))
      (tr : List NetEvent),
    runChecks probe ts status tr =
      .ok (status ++ ts.map (fun t => (t.1, statusOf (probe t.2.1 t.2.2 1))),
           tr ++ (ts.map (targetTrace probe)).flatten) := by
  intro ts
  induction ts with
  | nil => intro status tr; simp [runChecks]
  | cons t rest ih =>
    intro status tr
    obtain ⟨name, host, port⟩ := t
    simp only [runChecks]
    cases hpr : probe host port 1 with
    | ok u =>
        rw [ih]
        simp [statusOf, targetTrace, hpr]
    | error e =>
        have hc : caughtByExcept e = true :=
          caught_of_transport (hp host port 1 e hpr)
        simp [hc, ih, statusOf, targetTrace, hpr]

/-- The spec-modelled loop at timeout 1 agrees with the status component of the
source loop on every target list, every accumulated report, and every
accumulated trace, including on uncaught exceptions. -/
theorem specLoop_eq_runChecks (probe : Probe) :
    ∀ (ts : List (String × String × Nat)) (status : List (String × String))
      (tr : List NetEvent),
    specLoop probe 1 ts status = (runChecks probe ts status tr).map Prod.fst := by
  intro ts
  induction ts with
  | nil => intro status tr; rfl
  | cons t rest ih =>
    intro status tr
    obtain ⟨name, host, port⟩ := t
    simp only [specLoop, runChecks]
    cases hpr : probe host port 1 with
    | ok u => exact ih _ _
    | error e =>
      by_cases hc : caughtByExcept e = true
      · simp only [hc, if_true]
        exact ih _ _
      · simp only [hc, if_false]
        rfl

/-- The state-threaded loop returns the ambient state unchanged and computes
the same report as the source loop, for every ambient state. -/
theorem runChecksSt_eq {σ : Type} (probe : Probe) (g : σ) :
    ∀ (ts : List (String × String × Nat)) (status : List (String × String))
      (tr : List NetEvent),
    runChecksSt probe ts status g =
      (runChecks probe ts status tr).map (fun p => (p.1, g)) := by
  intro ts
  induction ts with
  | nil => intro status tr; rfl
  | cons t rest ih =>
    intro status tr
    obtain ⟨name, host, port⟩ := t
    simp only [runChecksSt, runChecks]
    cases hpr : probe host port 1 with
    | ok u => exact ih _ _
    | error e =>
      by_cases hc : caughtByExcept e = true
      · simp only [hc, if_true]
        exact ih _ _
      · simp only [hc, if_false]
        rfl

theorem traceDuration_append (dur : String → Nat → ℚ) :
    ∀ (a b : List NetEvent),
    traceDuration dur (a ++ b) = traceDuration dur a + traceDuration dur b := by
  intro a b
  induction a with
  | nil => simp [traceDuration]
  | cons e rest ih =>
    cases e with
    | connect h p => simp [traceDuration, ih]; ring
    | close h p => simp [traceDuration, ih]

/-- One target's trace costs exactly its single connection attempt, whatever
the attempt's outcome. -/
theorem traceDuration_targetTrace (dur : String → Nat → ℚ) (probe : Probe)
    (t : String × String × Nat) :
    traceDuration dur (targetTrace probe t) = dur t.2.1 t.2.2 := by
  unfold targetTrace
  cases probe t.2.1 t.2.2 1 <;> simp [traceDuration]

theorem statusOf_up_or_down (o : Except PyExc Unit) :
    statusOf o = "UP" ∨ statusOf o = "DOWN" := by
  cases o <;> simp [statusOf]

/-- C1: for every invocation of check_server_status whose probe failures are
transport-level (the only failures a socket connection attempt produces), the
returned mapping has, for every possible key, exactly as many entries as the
hardcoded target list (frontend, backend, redis) has targets so named: exactly
one entry per target, keyed by the target's name, with no missing and no extra
keys, regardless of whether each probe succeeds or fails. -/
theorem C1_one_entry_per_target (probe : Probe) (hp : transportOnly probe)
    (name : String) :
    countKey (check_server_status probe) name =
      (servers.map (fun t => t.1)).count name := by
  unfold countKey check_server_status
  rw [runChecks_eq probe hp]
  simp [servers, Except.map]

theorem C1_one_entry_per_target_witness :
    countKey (check_server_status probeAllDown) "frontend" =
      (servers.map (fun t => t.1)).count "frontend" :=
  C1_one_entry_per_target probeAllDown transportOnly_probeAllDown "frontend"

/-- C2: every value in the mapping returned by check_server_status is exactly
the string "UP" or exactly the string "DOWN", for any probe whose failures are
transport-level, whatever each probe's outcome. -/
theorem C2_values_up_or_down (probe : Probe) (hp : transportOnly probe)
    (l : List (String × String)) (hl : check_server_status probe = .ok l)
    (p : String × String) (hmem : p ∈ l) :
    p.2 = "UP" ∨ p.2 = "DOWN" := by
  unfold check_server_status at hl
  rw [runChecks_eq probe hp] at hl
  simp only [Except.map, Except.ok.injEq, List.nil_append] at hl
  subst hl
  obtain ⟨t, _, rfl⟩ := List.mem_map.mp hmem
  exact statusOf_up_or_down _

theorem C2_values_up_or_down_witness :
    ("frontend", "DOWN").2 = "UP" ∨ ("frontend", "DOWN").2 = "DOWN" :=
  C2_values_up_or_down probeAllDown transportOnly_probeAllDown
    [("frontend", "DOWN"), ("backend", "DOWN"), ("redis", "DOWN")] rfl
    ("frontend", "DOWN") (by simp)

/-- C9: for every probe whose failures are transport-level, whatever the
combination of per-target outcomes, the returned mapping's keys are, in
insertion order, exactly frontend, backend, redis — the order of the hardcoded
dict, which Python dicts preserve. -/
theorem C9_key_order_deterministic (probe : Probe) (hp : transportOnly probe) :
    statusKeys (check_server_status probe) =
      some ["frontend", "backend", "redis"] := by
  unfold statusKeys check_server_status
  rw [runChecks_eq probe hp]
  simp [servers, Except.map]

theorem C9_key_order_deterministic_witness :
    statusKeys (check_server_status probeOnlyBackend) =
      some ["frontend", "backend", "redis"] :=
  C9_key_order_deterministic probeOnlyBackend transportOnly_probeOnlyBackend

/-- C3: check_server_status never raises an exception to its caller for a
transport-level probe failure: when every raised exception is transport-level
(the OSError hierarchy: timeout, connection refused, host unreachable, DNS
failure, any other OS-level transport error), the call returns normally, and
every target whose probe raised is recorded with status "DOWN". -/
theorem C3_transport_errors_never_raise (probe : Probe) (hp : transportOnly probe)
    (t : String × String × Nat) (ht : t ∈ servers)
    (e : PyExc) (he : probe t.2.1 t.2.2 1 = .error e) :
    exceptOk (check_server_status probe) = true ∧
    statusLookup (check_server_status probe) t.1 = some "DOWN" := by
  unfold exceptOk statusLookup check_server_status
  rw [runChecks_eq probe hp]
  refine ⟨rfl, ?_⟩
  simp only [servers, List.mem_cons, List.not_mem_nil, or_false] at ht
  rcases ht with h | h | h <;> subst h <;>
    simp [servers, Except.map, List.lookup, he, statusOf]

theorem C3_transport_errors_never_raise_witness :
    exceptOk (check_server_status probeAllDown) = true ∧
    statusLookup (check_server_status probeAllDown) "frontend" = some "DOWN" :=
  C3_transport_errors_never_raise probeAllDown transportOnly_probeAllDown
    ("frontend", ("localhost", 3002)) (by simp [servers])
    .connectionRefused rfl

/-- C4: for every target whose connection attempt succeeds (and all failures
are transport-level), check_server_status records "UP" under that target's
name, and the trace is the concatenation of the per-target segments in target
order, where a successful target's segment is its connect immediately followed
by its close — so the close happens before the next target's connect. -/
theorem C4_success_up_and_close (probe : Probe) (hp : transportOnly probe)
    (t : String × String × Nat) (ht : t ∈ servers)
    (hs : probe t.2.1 t.2.2 1 = .ok ()) :
    statusLookup (check_server_status probe) t.1 = some "UP" ∧
    check_server_trace probe = .ok ((servers.map (targetTrace probe)).flatten) ∧
    targetTrace probe t = [.connect t.2.1 t.2.2, .close t.2.1 t.2.2] := by
  refine ⟨?_, ?_, ?_⟩
  · unfold statusLookup check_server_status
    rw [runChecks_eq probe hp]
    simp only [servers, List.mem_cons, List.not_mem_nil, or_false] at ht
    rcases ht with h | h | h <;> subst h <;>
      simp [servers, Except.map, List.lookup, hs, statusOf]
  · unfold check_server_trace
    rw [runChecks_eq probe hp]
    simp [Except.map]
  · simp [targetTrace, hs]

theorem C4_success_up_and_close_witness :
    statusLookup (check_server_status probeOnlyBackend) "backend" = some "UP" ∧
    check_server_trace probeOnlyBackend =
      .ok ((servers.map (targetTrace probeOnlyBackend)).flatten) ∧
    targetTrace probeOnlyBackend ("backend", ("localhost", 3001)) =
      [.connect "localhost" 3001, .close "localhost" 3001] :=
  C4_success_up_and_close probeOnlyBackend transportOnly_probeOnlyBackend
    ("backend", ("localhost", 3001)) (by simp [servers]) rfl

/-- C6: the probed target set is exactly the three fixed triples
(frontend, localhost, 3002), (backend, localhost, 3001),
(redis, localhost, 6379): the hardcoded list has exactly these entries, and on
every invocation (with transport-level failures) the connection attempts in
the trace are exactly these three (host, port) pairs, in this order. -/
theorem C6_fixed_target_set (probe : Probe) (hp : transportOnly probe) :
    servers = [("frontend", ("localhost", 3002)), ("backend", ("localhost", 3001)),
               ("redis", ("localhost", 6379))] ∧
    (check_server_trace probe).map connectTargets =
      .ok [("localhost", 3002), ("localhost", 3001), ("localhost", 6379)] := by
  refine ⟨rfl, ?_⟩
  unfold check_server_trace
  rw [runChecks_eq probe hp]
  simp only [servers, List.map, List.flatten, List.nil_append, List.append_nil,
    Except.map]
  cases h1 : probe "localhost" 3002 1 <;> cases h2 : probe "localhost" 3001 1 <;>
    cases h3 : probe "localhost" 6379 1 <;>
      simp [targetTrace, connectTargets, h1, h2, h3]

theorem C6_fixed_target_set_witness :
    servers = [("frontend", ("localhost", 3002)), ("backend", ("localhost", 3001)),
               ("redis", ("localhost", 6379))] ∧
    (check_server_trace probeAllUp).map connectTargets =
      .ok [("localhost", 3002), ("localhost", 3001), ("localhost", 6379)] :=
  C6_fixed_target_set probeAllUp transportOnly_probeAllUp

/-- C7: the targets are probed one after another on a single thread (the loop
is sequential, each event trace is per-target segments in order), each
connection attempt is bounded by the 1-second timeout, and when each attempt
indeed takes at most 1 second the whole call's wall time is bounded by
N x 1 second for the N = 3 hardcoded targets, even when every target is down
or unreachable; the call (a structurally recursive loop) never hangs. -/
theorem C7_duration_bounded (probe : Probe) (hp : transportOnly probe)
    (dur : String → Nat → ℚ) (hdur : ∀ h p, dur h p ≤ 1)
    (tr : List NetEvent) (htr : check_server_trace probe = .ok tr) :
    traceDuration dur tr ≤ (servers.length : ℚ) * 1 := by
  unfold check_server_trace at htr
  rw [runChecks_eq probe hp] at htr
  simp only [Except.map, Except.ok.injEq, List.nil_append] at htr
  subst htr
  simp only [servers, List.map, List.flatten, List.append_nil, List.length_cons,
    List.length_nil]
  rw [traceDuration_append, traceDuration_append]
  have h1 := traceDuration_targetTrace dur probe ("frontend", ("localhost", 3002))
  have h2 := traceDuration_targetTrace dur probe ("backend", ("localhost", 3001))
  have h3 := traceDuration_targetTrace dur probe ("redis", ("localhost", 6379))
  simp only at h1 h2 h3
  rw [h1, h2, h3]
  have b1 := hdur "localhost" 3002
  have b2 := hdur "localhost" 3001
  have b3 := hdur "localhost" 6379
  push_cast
  linarith

theorem C7_duration_bounded_witness :
    traceDuration (fun _ _ => 1)
      [.connect "localhost" 3002, .connect "localhost" 3001,
       .connect "localhost" 6379] ≤ (servers.length : ℚ) * 1 :=
  C7_duration_bounded probeAllDown transportOnly_probeAllDown
    (fun _ _ => 1) (fun _ _ => le_refl 1) _ rfl

/-- C8: check_server_status mutates no program state outside its own call: over
any ambient program state g (of any type), the call returns g unchanged and
its report does not depend on g — the report is built from the fresh local
`status = {}`, so successive or concurrent calls are independent. -/
theorem C8_no_external_state_mutation (σ : Type) (g : σ) (probe : Probe) :
    check_server_status_st probe g =
      (check_server_status probe).map (fun l => (l, g)) := by
  unfold check_server_status_st check_server_status
  rw [runChecksSt_eq probe g servers [] []]
  cases runChecks probe servers [] [] <;> rfl

theorem C8_no_external_state_mutation_witness :
    check_server_status_st probeAllUp (42 : Nat) =
      (check_server_status probeAllUp).map (fun l => (l, (42 : Nat))) :=
  C8_no_external_state_mutation Nat 42 probeAllUp

/-- C10: per-target noninterference — the status recorded for a target depends
only on that target's own connection outcome: two probes (with transport-level
failures) that agree on one target's (host, port, timeout=1) outcome yield the
same reported status for that target's name, whatever they do on the other
targets. -/
theorem C10_per_target_noninterference (p1 p2 : Probe)
    (h1 : transportOnly p1) (h2 : transportOnly p2)
    (t : String × String × Nat) (ht : t ∈ servers)
    (hsame : p1 t.2.1 t.2.2 1 = p2 t.2.1 t.2.2 1) :
    statusLookup (check_server_status p1) t.1 =
      statusLookup (check_server_status p2) t.1 := by
  unfold statusLookup check_server_status
  rw [runChecks_eq p1 h1, runChecks_eq p2 h2]
  simp only [servers, List.mem_cons, List.not_mem_nil, or_false] at ht
  rcases ht with h | h | h <;> subst h <;>
    simp_all [servers, Except.map, List.lookup]

theorem C10_per_target_noninterference_witness :
    statusLookup (check_server_status probeOnlyBackend) "backend" =
      statusLookup (check_server_status probeAllUp) "backend" :=
  C10_per_target_noninterference probeOnlyBackend probeAllUp
    transportOnly_probeOnlyBackend transportOnly_probeAllUp
    ("backend", ("localhost", 3001)) (by simp [servers]) rfl

/-- C5 counterexample: the repository's prober is not callable with
caller-supplied targets or a caller-overridable timeout.  `check_server_status`
always probes the three hardcoded targets with timeout exactly 1 second: on a
network where connections complete only under a timeout of at least 2 seconds
it reports every target DOWN, while the spec's `check_status` contract invoked
with timeout_seconds = 2 would report every target UP; and no invocation of
`check_server_status` can return the report for a supplied target list such as
[("cache", "localhost", 6380)], which `check_status` would produce. -/
theorem C5_no_caller_supplied_targets_or_timeout :
    check_server_status probeNeedsTwo =
      .ok [("frontend", "DOWN"), ("backend", "DOWN"), ("redis", "DOWN")] ∧
    check_status probeNeedsTwo servers 2 =
      .ok [("frontend", "UP"), ("backend", "UP"), ("redis", "UP")] ∧
    check_status probeNeedsTwo [("cache", ("localhost", 6380))] 1 =
      .ok [("cache", "DOWN")] ∧
    statusKeys (check_server_status probeNeedsTwo) ≠ some ["cache"] :=
  ⟨rfl, rfl, rfl, by decide⟩

/-- C5 amended: the repository's prober takes no parameters — its target list
is hardcoded to the three fixed triples and its per-attempt timeout is fixed
at 1 second.  It realizes the spec's `check_status(targets, timeout_seconds)`
contract exactly at the fixed instantiation: for every network,
`check_server_status` produces the report `check_status` produces for the
hardcoded `servers` sequence and the default 1-second timeout. -/
theorem C5_realizes_contract_at_fixed_instantiation (probe : Probe) :
    check_server_status probe = check_status probe servers 1 := by
  unfold check_server_status check_status
  exact (specLoop_eq_runChecks probe servers [] []).symm

theorem C5_realizes_contract_witness :
    check_server_status probeAllDown = check_status probeAllDown servers 1 :=
  C5_realizes_contract_at_fixed_instantiation probeAllDown

end SteamTools
